import Mathlib

/-!
Shallow embedding of the stealth-browser session pool, engine-fallback policy
and crawl orchestrator (Python sources under `src/stealth_browser/`), together
with theorems settling the specification claims C1-C10.

Modelling conventions:
* Python strings are `List Char` (so `len` is `List.length`); opaque handles
  (browser contexts, pages) are `Nat` ids.
* Python `dict` (insertion ordered) is an association list `List (String × α)`.
* Fallible calls return `Except Exn α`; an escaped exception is `.error`.
* Calls into external collaborators (the browser driver, DNS-based URL
  validation, the extraction pipeline) are oracle parameters, so theorems
  quantify over every possible collaborator behaviour.
-/

namespace StealthBrowser

/-! ### Python string helpers (security.py) -/

/-- Index of the last occurrence of `sep` in `s`, if any: the split point used
by Python `s.rsplit(sep, 1)`. -/
def lastOcc (sep s : List Char) : Option Nat :=
  ((List.range (s.length + 1)).filter (fun i => sep.isPrefixOf (s.drop i))).getLast?

/-- Python `s.rsplit(sep, 1)[0]`: everything before the last occurrence of
`sep`, or the whole string when `sep` does not occur in `s`. -/
def rsplitBefore (sep s : List Char) : List Char :=
  match lastOcc sep s with
  | none => s
  | some i => s.take i

theorem rsplitBefore_leading (sep s : List Char) : rsplitBefore sep s <+: s := by
  unfold rsplitBefore
  cases lastOcc sep s with
  | none => exact ⟨[], List.append_nil s⟩
  | some i => exact ⟨s.drop i, List.take_append_drop i s⟩

theorem rsplitBefore_length_le (sep s : List Char) :
    (rsplitBefore sep s).length ≤ s.length :=
  (rsplitBefore_leading sep s).length_le

/-- The fixed truncation marker appended by `smart_truncate`
(security.py line 79: `"\n\n[... truncated]"`). -/
def truncMarker : List Char := "\n\n[... truncated]".toList

/-- security.py `smart_truncate(text, max_length)`.  The float comparison
`len(cut) < max_length * 0.5` is exact on the integers involved, and is
rendered as `2 * cut.length < maxLength`. -/
def smart_truncate (text : List Char) (maxLength : Nat) : List Char × Bool :=
  if text.length ≤ maxLength then (text, false)
  else
    -- cut = text[:max_length].rsplit("\n\n", 1)[0]
    let pfx := text.take maxLength
    let cut1 := rsplitBefore ['\n', '\n'] pfx
    -- if len(cut) < max_length * 0.5: cut = text[:max_length].rsplit("\n", 1)[0]
    let cut2 := if 2 * cut1.length < maxLength then rsplitBefore ['\n'] pfx else cut1
    -- if len(cut) < max_length * 0.5: cut = text[:max_length]
    let cut3 := if 2 * cut2.length < maxLength then pfx else cut2
    (cut3 ++ truncMarker, true)

/-- The cut point described by the spec's ordered fallback (§4.3): the last
paragraph break (double newline) within the bound; if that cut falls below
half the bound, the last single-line break within the bound; if that is still
below half the bound, a hard cut exactly at the bound.  Following Python's
`rsplit` convention, "cut at the last occurrence" yields the whole bounded
prefix when the separator does not occur. -/
def orderedFallbackCut (text : List Char) (maxLength : Nat) : List Char :=
  let bound := text.take maxLength
  let para := rsplitBefore ['\n', '\n'] bound
  if maxLength ≤ 2 * para.length then para
  else
    let line := rsplitBefore ['\n'] bound
    if maxLength ≤ 2 * line.length then line
    else bound

theorem smart_truncate_cut (text : List Char) (maxLength : Nat)
    (h : maxLength < text.length) :
    smart_truncate text maxLength =
      (orderedFallbackCut text maxLength ++ truncMarker, true) := by
  have hnot : ¬ text.length ≤ maxLength := by omega
  simp only [smart_truncate, orderedFallbackCut, hnot, if_false]
  split_ifs <;> first | rfl | omega

theorem orderedFallbackCut_leading (text : List Char) (maxLength : Nat) :
    orderedFallbackCut text maxLength <+: text := by
  have hpfx : text.take maxLength <+: text :=
    ⟨text.drop maxLength, List.take_append_drop maxLength text⟩
  simp only [orderedFallbackCut]
  split_ifs
  · exact (rsplitBefore_leading _ _).trans hpfx
  · exact (rsplitBefore_leading _ _).trans hpfx
  · exact hpfx

theorem orderedFallbackCut_length_le (text : List Char) (maxLength : Nat) :
    (orderedFallbackCut text maxLength).length ≤ maxLength := by
  have hpfx_len : (text.take maxLength).length ≤ maxLength := by
    rw [List.length_take]; exact min_le_left _ _
  simp only [orderedFallbackCut]
  split_ifs
  · exact le_trans (rsplitBefore_length_le _ _) hpfx_len
  · exact le_trans (rsplitBefore_length_le _ _) hpfx_len
  · exact hpfx_len

/-- C6: `smart_truncate(text, max)` returns `(text, false)` when
`len(text) <= max`; otherwise it returns truncated=true, the result's length
is at most `max` plus the marker length, the portion preceding the marker is
a prefix of the original text, and the cut point follows the ordered fallback
(paragraph break, then line break when the paragraph cut is below half the
bound, then hard cut at the bound). -/
theorem C6_smart_truncate
    (text : List Char) (maxLength : Nat) :
    (text.length ≤ maxLength → smart_truncate text maxLength = (text, false)) ∧
    (maxLength < text.length →
      (smart_truncate text maxLength).2 = true ∧
      (smart_truncate text maxLength).1.length ≤ maxLength + truncMarker.length ∧
      ∃ cut, (smart_truncate text maxLength).1 = cut ++ truncMarker ∧
        cut <+: text ∧ cut = orderedFallbackCut text maxLength) := by
  constructor
  · intro h
    simp [smart_truncate, h]
  · intro h
    have hc := smart_truncate_cut text maxLength h
    refine ⟨by rw [hc], ?_,
      orderedFallbackCut text maxLength, by rw [hc],
      orderedFallbackCut_leading text maxLength, rfl⟩
    rw [hc]
    simp only [List.length_append]
    have := orderedFallbackCut_length_le text maxLength
    omega

/-! ### Bot-block classifier (server.py `_is_bot_blocked`) -/

/-- Python `str.lower()` (the block signals and test titles are ASCII). -/
def pyLower (s : List Char) : List Char := s.map Char.toLower

/-- ASCII part of Python's `str.strip()` whitespace set. -/
def pyIsSpace (c : Char) : Bool :=
  c = ' ' || c = '\t' || c = '\n' || c = '\r' || c = '\x0b' || c = '\x0c'

/-- Python `str.strip()`: drop whitespace from both ends. -/
def pyStrip (s : List Char) : List Char :=
  ((s.dropWhile pyIsSpace).reverse.dropWhile pyIsSpace).reverse

/-- Python substring containment `sub in s`. -/
def listIsInfixOf (sub s : List Char) : Bool :=
  (List.range (s.length + 1)).any (fun i => sub.isPrefixOf (s.drop i))

/-- server.py `BOT_BLOCK_SIGNALS`. -/
def BOT_BLOCK_SIGNALS : List (List Char) :=
  ["bot detected".toList, "just a moment".toList, "attention required".toList,
   "access denied".toList, "blocked by bot protection".toList,
   "checking your browser".toList, "verify you are human".toList,
   "please enable cookies".toList]

/-- Shape of the result dictionaries built and consumed by the tool layer
(server.py).  `error = none` models the absence of an `"error"` key;
`title`/`content` model `result.get(...)` (absent key = `none`). -/
structure BPayload where
  error : Option String := none
  title : Option (List Char) := none
  content : Option (List Char) := none
  statusCode : Option Int := none
  sessionId : Option String := none
  urlKey : Option String := none
  engineKey : Option String := none
  fallback : Bool := false
  fallbackError : Option String := none
  truncated : Bool := false
  captchaDetected : Bool := false
  extractionMethod : Option String := none
  success : Option Bool := none
  statusMsg : Option String := none
  sections : List (String × String) := []
  deriving DecidableEq

/-- server.py `_is_bot_blocked(result)` (lines 38-53). -/
def is_bot_blocked (r : BPayload) : Bool :=
  -- if "error" in result: return False
  match r.error with
  | some _ => false
  | none =>
    -- title = (result.get("title") or "").lower(); content = result.get("content") or ""
    let title := pyLower (r.title.getD [])
    let content := r.content.getD []
    if r.statusCode = some 403 then true
    else if BOT_BLOCK_SIGNALS.any (fun sig => listIsInfixOf sig title) then true
    else if (pyStrip content).length < 50 ∧
            (r.statusCode = some 200 ∨ r.statusCode = some 204) then true
    else false

/-- A success HTTP status in the usual (RFC 9110) sense, as the claim's
"success code" reads most naturally. -/
def isSuccessStatus (s : Int) : Prop := 200 ≤ s ∧ s ≤ 299

/-- The classifier claimed by C7, rendered from its words: no error AND
(status 403 OR block-signal title OR short stripped content with a success
status). -/
def claimedBotBlocked (r : BPayload) : Prop :=
  r.error = none ∧
  (r.statusCode = some 403 ∨
   (∃ sig ∈ BOT_BLOCK_SIGNALS, listIsInfixOf sig (pyLower (r.title.getD [])) = true) ∨
   ((pyStrip (r.content.getD [])).length < 50 ∧
    ∃ s, r.statusCode = some s ∧ isSuccessStatus s))

/-- C7 fails as stated: a result with no error, empty content and HTTP status
201 (a success code) is claimed bot-blocked, but `_is_bot_blocked` only
treats 200 and 204 as success statuses and returns false. -/
theorem C7_counterexample :
    is_bot_blocked { title := some [], content := some [], statusCode := some 201 } = false ∧
    claimedBotBlocked { title := some [], content := some [], statusCode := some 201 } := by
  constructor
  · decide
  · exact ⟨rfl, Or.inr (Or.inr ⟨by decide, 201, rfl,
      (⟨by decide, by decide⟩ : (200 : Int) ≤ 201 ∧ (201 : Int) ≤ 299)⟩)⟩

theorem pyStrip_replicate_a (n : Nat) :
    pyStrip (List.replicate n 'a') = List.replicate n 'a' := by
  have hdrop : ∀ m, List.dropWhile pyIsSpace (List.replicate m 'a') = List.replicate m 'a' := by
    intro m
    cases m with
    | zero => rfl
    | succ k => simp [List.replicate_succ, List.dropWhile_cons, pyIsSpace]
  unfold pyStrip
  rw [hdrop, List.reverse_replicate, hdrop, List.reverse_replicate]

/-- C7 amended: `_is_bot_blocked(result)` returns true exactly when the result
carries no error and (the status is 403, or the title contains a block-signal
phrase, or the stripped content length is below 50 while the status is 200 or
204 — not an arbitrary success code).  In particular a no-error 403 result is
blocked, a no-error 200 result with content length 10 is blocked, and a
no-error 200 result with content length 5000 and a non-signal title is not. -/
theorem is_bot_blocked_iff (r : BPayload) :
    is_bot_blocked r = true ↔
      (r.error = none ∧
       (r.statusCode = some 403 ∨
        (∃ sig ∈ BOT_BLOCK_SIGNALS, listIsInfixOf sig (pyLower (r.title.getD [])) = true) ∨
        ((pyStrip (r.content.getD [])).length < 50 ∧
         (r.statusCode = some 200 ∨ r.statusCode = some 204)))) := by
  unfold is_bot_blocked
  cases herr : r.error with
  | some e => simp [herr]
  | none =>
    simp only [herr, true_and]
    split_ifs with h1 h2 h3
    · simp [h1]
    · simp only [true_iff]
      exact Or.inr (Or.inl (by simpa [List.any_eq_true] using h2))
    · simp only [true_iff]
      exact Or.inr (Or.inr h3)
    · simp only [Bool.false_eq_true, false_iff]
      intro hcontra
      rcases hcontra with h403 | hsig | hshort
      · exact h1 h403
      · exact h2 (by simpa [List.any_eq_true] using hsig)
      · exact h3 hshort

theorem C7_amended :
    (∀ r : BPayload, is_bot_blocked r = true ↔
      (r.error = none ∧
       (r.statusCode = some 403 ∨
        (∃ sig ∈ BOT_BLOCK_SIGNALS, listIsInfixOf sig (pyLower (r.title.getD [])) = true) ∨
        ((pyStrip (r.content.getD [])).length < 50 ∧
         (r.statusCode = some 200 ∨ r.statusCode = some 204))))) ∧
    is_bot_blocked { title := some "Example Domain".toList, content := some [],
                     statusCode := some 403 } = true ∧
    is_bot_blocked { title := some "Example Domain".toList,
                     content := some (List.replicate 10 'a'),
                     statusCode := some 200 } = true ∧
    is_bot_blocked { title := some "Example Domain".toList,
                     content := some (List.replicate 5000 'a'),
                     statusCode := some 200 } = false := by
  refine ⟨is_bot_blocked_iff, by decide, by decide, ?_⟩
  rw [Bool.eq_false_iff]
  intro htrue
  rw [is_bot_blocked_iff] at htrue
  rcases htrue with ⟨-, h403 | hsig | hshort⟩
  · exact absurd h403 (by decide)
  · revert hsig; decide
  · rcases hshort with ⟨hlen, -⟩
    rw [show (({ title := some "Example Domain".toList,
                 content := some (List.replicate 5000 'a'),
                 statusCode := some 200 } : BPayload).content.getD []) =
          List.replicate 5000 'a' from rfl, pyStrip_replicate_a,
        List.length_replicate] at hlen
    omega

/-! ### Session pool (browser_manager.py, session.py) -/

/-- Python exception classes crossing the embedded boundaries. -/
inductive Exn where
  | security (msg : String)
  | runtimeError (msg : String)
  | valueError (msg : String)
  | other (msg : String)
  deriving DecidableEq

def exnMsg : Exn → String
  | .security m => m
  | .runtimeError m => m
  | .valueError m => m
  | .other m => m

/-- session.py `Session` (dataclass, lines 41-59).  `context`/`page` are the
opaque browser handles; the per-session asyncio lock is not modelled (each
operation is embedded as one atomic state transition).  `observerInstalled`
records that `_setup_request_interceptor` registered the
`page.on("response", ...)` handler.

Modelled from the spec: the `engine` field (the spec's `engine_kind`, §3) is
missing from the dataclass in src/ although browser_manager.py both passes
`engine=` to the constructor (line 228) and reads `session.engine`
(line 258); it is restored here following the spec's data model. -/
structure Session where
  id : String
  context : Nat
  page : Nat
  engine : String
  created_at : Nat
  last_used : Nat
  statusCode : Option Int := none
  observerInstalled : Bool := false
  deriving DecidableEq

/-- The `on_response` handler installed by `_setup_request_interceptor`
(session.py lines 54-59): records the latest HTTP status code. -/
def Session.onResponse (s : Session) (status : Int) : Session :=
  { s with statusCode := some status }

/-- config.py `Config` (the fields the embedded core reads). -/
structure Config where
  maxSessions : Nat
  crawlMaxPagesLimit : Nat := 20
  deriving DecidableEq

/-- The pool-owned state of `BrowserManager`: the session dict, the two
engine handles (as liveness/availability flags), a counter supplying fresh
context/page handles, and the log of session ids whose resources were
released through `Session.close`. -/
structure PoolState where
  sessions : List (String × Session)
  chromiumConnected : Bool
  camoufoxAvailable : Bool
  nextCtx : Nat
  closedLog : List String
  deriving DecidableEq

/-- Nondeterministic inputs to one `get_or_create_session` call:
`str(uuid.uuid4())[:8]` and the current time. -/
structure CreateEnv where
  freshId : String
  now : Nat
  deriving DecidableEq

/-- Python truthiness of `session_id` (`if session_id:`): `None` and the
empty string are falsy. -/
def truthy : Option String → Bool
  | none => false
  | some s => s != ""

/-- Python dict lookup `m.get(k)`. -/
def dictGet (m : List (String × Session)) (k : String) : Option Session :=
  (m.find? (fun p => p.1 == k)).map Prod.snd

/-- Python `k in m`. -/
def dictMem (m : List (String × Session)) (k : String) : Bool :=
  m.any (fun p => p.1 == k)

/-- Python dict assignment `m[k] = v` (in-place update preserving insertion
order, append when the key is new). -/
def dictSet (m : List (String × Session)) (k : String) (v : Session) :
    List (String × Session) :=
  if dictMem m k then m.map (fun p => if p.1 == k then (k, v) else p)
  else m ++ [(k, v)]

theorem dictGet_dictSet_self (m : List (String × Session)) (k : String) (v : Session) :
    dictGet (dictSet m k v) k = some v := by
  unfold dictSet
  split_ifs with hmem
  · unfold dictMem at hmem
    unfold dictGet
    induction m with
    | nil => simp at hmem
    | cons p t ih =>
      by_cases hp : (p.1 == k) = true
      · rw [List.map_cons, if_pos hp, List.find?_cons_of_pos _ (by simp)]
        rfl
      · have hmem' : (t.any (fun p => p.1 == k)) = true := by
          rw [List.any_cons] at hmem
          simpa [hp] using hmem
        rw [List.map_cons, if_neg hp,
          List.find?_cons_of_neg _ (by simpa using hp)]
        exact ih hmem'
  · unfold dictMem at hmem
    unfold dictGet
    induction m with
    | nil => simp
    | cons p t ih =>
      rw [List.any_cons] at hmem
      simp only [Bool.or_eq_true, not_or] at hmem
      rw [List.cons_append, List.find?_cons_of_neg _ (by simpa using hmem.1)]
      exact ih (by simpa using hmem.2)

theorem length_dictSet_le (m : List (String × Session)) (k : String) (v : Session) :
    (dictSet m k v).length ≤ m.length + 1 := by
  unfold dictSet
  split_ifs <;> simp

theorem dictGet_eq_none (m : List (String × Session)) (k : String)
    (h : ∀ p ∈ m, p.1 ≠ k) : dictGet m k = none := by
  unfold dictGet
  induction m with
  | nil => rfl
  | cons p t ih =>
    rw [List.find?_cons_of_neg _ (by simpa using h p (List.mem_cons_self p t))]
    exact ih (fun q hq => h q (List.mem_cons_of_mem p hq))

theorem dictGet_of_mem_nodup (m : List (String × Session))
    (hk : (m.map Prod.fst).Nodup) (p : String × Session) (hp : p ∈ m) :
    dictGet m p.1 = some p.2 := by
  unfold dictGet
  induction m with
  | nil => cases hp
  | cons q t ih =>
    rcases List.mem_cons.mp hp with rfl | hp'
    · rw [List.find?_cons_of_pos _ (by simp)]
      rfl
    · have hq : (q.1 == p.1) = false := by
        rw [List.map_cons, List.nodup_cons] at hk
        have : p.1 ∈ t.map Prod.fst := List.mem_map_of_mem Prod.fst hp'
        simp only [beq_eq_false_iff_ne, ne_eq]
        intro hcontra
        exact hk.1 (hcontra ▸ this)
      rw [List.find?_cons_of_neg _ (by simp [hq])]
      exact ih (by rw [List.map_cons, List.nodup_cons] at hk; exact hk.2) hp'

theorem eq_of_fst_eq_of_nodup {l : List (String × Session)}
    (h : (l.map Prod.fst).Nodup) {p q : String × Session}
    (hp : p ∈ l) (hq : q ∈ l) (hfst : p.1 = q.1) : p = q := by
  have h1 := dictGet_of_mem_nodup l h p hp
  have h2 := dictGet_of_mem_nodup l h q hq
  rw [hfst, h2] at h1
  have : q.2 = p.2 := by injection h1
  exact Prod.ext hfst this.symm

/-- Python `min(self._sessions.values(), key=lambda s: s.last_used)` over the
dict entries (Python `min` returns the first minimum in iteration order). -/
def minByLastUsed : List (String × Session) → Option (String × Session)
  | [] => none
  | x :: xs =>
    some (xs.foldl (fun b y => if y.2.last_used < b.2.last_used then y else b) x)

theorem foldlMin_mem (xs : List (String × Session)) (b : String × Session) :
    xs.foldl (fun b y => if y.2.last_used < b.2.last_used then y else b) b = b ∨
    xs.foldl (fun b y => if y.2.last_used < b.2.last_used then y else b) b ∈ xs := by
  induction xs generalizing b with
  | nil => exact Or.inl rfl
  | cons y t ih =>
    rw [List.foldl_cons]
    rcases ih (if y.2.last_used < b.2.last_used then y else b) with h | h
    · rw [h]
      split_ifs
      · exact Or.inr (List.mem_cons_self _ _)
      · exact Or.inl rfl
    · exact Or.inr (List.mem_cons_of_mem _ h)

theorem foldlMin_le (xs : List (String × Session)) (b : String × Session) :
    (xs.foldl (fun b y => if y.2.last_used < b.2.last_used then y else b) b).2.last_used ≤
      b.2.last_used ∧
    ∀ q ∈ xs,
      (xs.foldl (fun b y => if y.2.last_used < b.2.last_used then y else b) b).2.last_used ≤
        q.2.last_used := by
  induction xs generalizing b with
  | nil => exact ⟨le_refl _, by simp⟩
  | cons y t ih =>
    rw [List.foldl_cons]
    obtain ⟨h1, h2⟩ := ih (if y.2.last_used < b.2.last_used then y else b)
    constructor
    · refine le_trans h1 ?_
      split_ifs with hc
      · omega
      · exact le_refl _
    · intro q hq
      rcases List.mem_cons.mp hq with rfl | hq'
      · refine le_trans h1 ?_
        split_ifs with hc
        · exact le_refl _
        · omega
      · exact h2 q hq'

theorem minByLastUsed_spec (m : List (String × Session)) (hm : m ≠ []) :
    ∃ v, minByLastUsed m = some v ∧ v ∈ m ∧
      ∀ q ∈ m, v.2.last_used ≤ q.2.last_used := by
  cases m with
  | nil => exact absurd rfl hm
  | cons x xs =>
    refine ⟨_, rfl, ?_, ?_⟩
    · rcases foldlMin_mem xs x with h | h
      · rw [h]; exact List.mem_cons_self _ _
      · exact List.mem_cons_of_mem _ h
    · intro q hq
      obtain ⟨h1, h2⟩ := foldlMin_le xs x
      rcases List.mem_cons.mp hq with rfl | hq'
      · exact h1
      · exact h2 q hq'

/-- browser_manager.py `_evict_oldest` (lines 262-269): pop the session with
the least-recently-used `last_used` and release its resources. -/
def evictOldest (st : PoolState) : PoolState :=
  match minByLastUsed st.sessions with
  | none => st
  | some oldest =>
    { st with sessions := st.sessions.eraseP (fun p => p.1 == oldest.1),
              closedLog := st.closedLog ++ [oldest.1] }

/-- browser_manager.py `_ensure_browser` (lines 246-260): when Chromium is
disconnected, relaunch it and pop every chromium-engine session from the map
(their contexts died with the process; they are popped, not closed). -/
def ensureBrowser (st : PoolState) : PoolState :=
  if st.chromiumConnected then st
  else
    { st with chromiumConnected := true,
              sessions := st.sessions.filter (fun p => !(p.2.engine == "chromium")) }

theorem ensureBrowser_nextCtx (st : PoolState) :
    (ensureBrowser st).nextCtx = st.nextCtx := by
  unfold ensureBrowser; split_ifs <;> rfl

theorem ensureBrowser_closedLog (st : PoolState) :
    (ensureBrowser st).closedLog = st.closedLog := by
  unfold ensureBrowser; split_ifs <;> rfl

theorem ensureBrowser_length_le (st : PoolState) :
    (ensureBrowser st).sessions.length ≤ st.sessions.length := by
  unfold ensureBrowser
  split_ifs
  · exact le_refl _
  · exact List.length_filter_le _ _

theorem ensureBrowser_sessions_sublist (st : PoolState) :
    List.Sublist (ensureBrowser st).sessions st.sessions := by
  unfold ensureBrowser
  split_ifs
  · exact List.Sublist.refl _
  · exact List.filter_sublist _

theorem evictOldest_nextCtx (st : PoolState) :
    (evictOldest st).nextCtx = st.nextCtx := by
  unfold evictOldest
  cases minByLastUsed st.sessions <;> rfl

theorem evictOldest_length (st : PoolState) (hne : st.sessions ≠ []) :
    (evictOldest st).sessions.length + 1 = st.sessions.length := by
  obtain ⟨v, hv, hvmem, -⟩ := minByLastUsed_spec st.sessions hne
  unfold evictOldest
  rw [hv]
  exact List.length_eraseP_add_one hvmem (by simp)

/-- browser_manager.py `get_or_create_session` (lines 185-232). -/
def getOrCreateSession (st : PoolState) (cfg : Config) (env : CreateEnv)
    (sessionId : Option String) (engine : String) :
    Except Exn (Session × PoolState) :=
  -- if session_id and session_id in self._sessions: return it unchanged
  match (if truthy sessionId then dictGet st.sessions (sessionId.getD "") else none) with
  | some s => .ok (s, st)
  | none =>
    -- engine selection: firefox requires Camoufox, chromium is health-checked
    if engine == "firefox" && !st.camoufoxAvailable then
      .error (.runtimeError "Camoufox Firefox engine not available")
    else
      let st1 := if engine == "firefox" then st else ensureBrowser st
      -- if len(self._sessions) >= self._config.max_sessions: evict oldest
      let st2 := if cfg.maxSessions ≤ st1.sessions.length then evictOldest st1 else st1
      -- sid = session_id or str(uuid.uuid4())[:8]
      let sid := if truthy sessionId then sessionId.getD "" else env.freshId
      -- new context, new page, Session(...), _setup_request_interceptor()
      let newSession : Session :=
        { id := sid, context := st2.nextCtx, page := st2.nextCtx + 1,
          engine := engine, created_at := env.now, last_used := env.now,
          statusCode := none, observerInstalled := true }
      .ok (newSession,
        { st2 with sessions := dictSet st2.sessions sid newSession,
                   nextCtx := st2.nextCtx + 2 })

/-- browser_manager.py `close_session` (lines 234-241). -/
def poolCloseSession (st : PoolState) (sessionId : String) : PoolState :=
  match dictGet st.sessions sessionId with
  | none => st
  | some _ =>
    { st with sessions := st.sessions.eraseP (fun p => p.1 == sessionId),
              closedLog := st.closedLog ++ [sessionId] }

/-- Unfolding of the session-creating path of `get_or_create_session`. -/
theorem getOrCreateSession_create (st : PoolState) (cfg : Config) (env : CreateEnv)
    (sessionId : Option String) (engine : String)
    (hreuse : (if truthy sessionId then dictGet st.sessions (sessionId.getD "") else none) = none)
    (herr : (engine == "firefox" && !st.camoufoxAvailable) = false) :
    getOrCreateSession st cfg env sessionId engine =
      (let st1 := if engine == "firefox" then st else ensureBrowser st
       let st2 := if cfg.maxSessions ≤ st1.sessions.length then evictOldest st1 else st1
       let sid := if truthy sessionId then sessionId.getD "" else env.freshId
       let newSession : Session :=
         { id := sid, context := st2.nextCtx, page := st2.nextCtx + 1,
           engine := engine, created_at := env.now, last_used := env.now,
           statusCode := none, observerInstalled := true }
       .ok (newSession,
         { st2 with sessions := dictSet st2.sessions sid newSession,
                    nextCtx := st2.nextCtx + 2 })) := by
  unfold getOrCreateSession
  rw [hreuse, herr]
  simp

/-- An empty pool with both engines up. -/
def emptyPool : PoolState :=
  { sessions := [], chromiumConnected := true, camoufoxAvailable := true,
    nextCtx := 0, closedLog := [] }

/-- C1 fails as stated at `session_id = ""`: the empty string is absent from
the session map, yet the created session's id is a fresh uuid rather than the
supplied (empty) `session_id`, because `if session_id:` and
`session_id or str(uuid.uuid4())[:8]` treat `""` as falsy. -/
theorem C1_counterexample :
    ∃ s st',
      getOrCreateSession emptyPool ⟨5, 20⟩ ⟨"ab12cd34", 0⟩ (some "") "chromium" =
        .ok (s, st') ∧ s.id = "ab12cd34" ∧ s.id ≠ "" := by
  refine ⟨_, _, rfl, rfl, by decide⟩

/-- C1 amended: for a call in which `session_id` is `None` or absent from the
session map, provided the requested engine is available, the uuid is fresh
and handle ids are consistent, the call returns a fresh `Session` on a new
browser context, bound to the requested engine, with the response-observer
installed (recording the latest HTTP status), whose id is the supplied
`session_id` when that is a non-empty string and a newly assigned unique id
when it is `None` **or the empty string**, and that session is present in the
pool map under its id at the moment the call returns. -/
theorem C1_amended (st : PoolState) (cfg : Config) (env : CreateEnv)
    (sessionId : Option String) (engine : String)
    (hdom : sessionId = none ∨ dictGet st.sessions (sessionId.getD "") = none)
    (heng : engine = "firefox" → st.camoufoxAvailable = true)
    (hfresh : ∀ p ∈ st.sessions, p.1 ≠ env.freshId)
    (hctx : ∀ p ∈ st.sessions, p.2.context < st.nextCtx) :
    ∃ s st', getOrCreateSession st cfg env sessionId engine = .ok (s, st') ∧
      s.id = (if truthy sessionId then sessionId.getD "" else env.freshId) ∧
      s.engine = engine ∧
      s.observerInstalled = true ∧
      (∀ c, (Session.onResponse s c).statusCode = some c) ∧
      dictGet st'.sessions s.id = some s ∧
      (truthy sessionId = false → ∀ p ∈ st.sessions, p.1 ≠ s.id) ∧
      (∀ p ∈ st.sessions, p.2.context ≠ s.context) := by
  have hreuse :
      (if truthy sessionId then dictGet st.sessions (sessionId.getD "") else none) = none := by
    cases htr : truthy sessionId with
    | false => simp
    | true =>
      rcases hdom with rfl | hd
      · simp [truthy] at htr
      · simp [hd]
  have herr : (engine == "firefox" && !st.camoufoxAvailable) = false := by
    cases he : engine == "firefox" with
    | false => simp
    | true =>
      have := heng (by simpa using he)
      simp [this]
  rw [getOrCreateSession_create st cfg env sessionId engine hreuse herr]
  refine ⟨_, _, rfl, rfl, rfl, rfl, fun c => rfl, dictGet_dictSet_self _ _ _, ?_, ?_⟩
  · intro hfalse p hp
    simp only [hfalse, Bool.false_eq_true, if_false]
    exact hfresh p hp
  intro p hp
  have h1 : p.2.context < st.nextCtx := hctx p hp
  have h2 :
      (if cfg.maxSessions ≤
          (if engine == "firefox" then st else ensureBrowser st).sessions.length then
        evictOldest (if engine == "firefox" then st else ensureBrowser st)
      else (if engine == "firefox" then st else ensureBrowser st)).nextCtx = st.nextCtx := by
    split_ifs with hf hc hc
    · rw [evictOldest_nextCtx]
    · rfl
    · rw [evictOldest_nextCtx, ensureBrowser_nextCtx]
    · rw [ensureBrowser_nextCtx]
  simp only [h2]
  omega

/-- Witness for C1 at a concrete call: a fresh session on a fresh pool. -/
theorem C1_witness :
    ∃ s st', getOrCreateSession emptyPool ⟨5, 20⟩ ⟨"idfresh1", 7⟩ none "firefox" = .ok (s, st') ∧
      s.id = (if truthy none then (none : Option String).getD "" else "idfresh1") ∧
      s.engine = "firefox" ∧
      s.observerInstalled = true ∧
      (∀ c, (Session.onResponse s c).statusCode = some c) ∧
      dictGet st'.sessions s.id = some s ∧
      (truthy none = false → ∀ p ∈ emptyPool.sessions, p.1 ≠ s.id) ∧
      (∀ p ∈ emptyPool.sessions, p.2.context ≠ s.context) :=
  C1_amended emptyPool ⟨5, 20⟩ ⟨"idfresh1", 7⟩ none "firefox"
    (Or.inl rfl) (fun _ => rfl) (by simp [emptyPool]) (by simp [emptyPool])

/-- C3: starting from any pool state with `size(map) <= max_sessions` and
`max_sessions >= 1`, the size bound still holds whenever
`get_or_create_session` returns; and when the map is at or over capacity at
creation time (after the liveness check), a session with the globally
minimal `last_used` is removed from the map and closed, while the new
request succeeds — it is never rejected for capacity reasons. -/
theorem C3_capacity_lru (st : PoolState) (cfg : Config) (env : CreateEnv)
    (sessionId : Option String) (engine : String)
    (hcap : st.sessions.length ≤ cfg.maxSessions) (hmax : 1 ≤ cfg.maxSessions) :
    (∀ s st', getOrCreateSession st cfg env sessionId engine = .ok (s, st') →
      st'.sessions.length ≤ cfg.maxSessions) ∧
    ((if truthy sessionId then dictGet st.sessions (sessionId.getD "") else none) = none →
     (engine = "firefox" → st.camoufoxAvailable = true) →
     cfg.maxSessions ≤ (if engine == "firefox" then st else ensureBrowser st).sessions.length →
     ∃ victim s st',
       victim ∈ (if engine == "firefox" then st else ensureBrowser st).sessions ∧
       (∀ q ∈ (if engine == "firefox" then st else ensureBrowser st).sessions,
          victim.2.last_used ≤ q.2.last_used) ∧
       getOrCreateSession st cfg env sessionId engine = .ok (s, st') ∧
       st'.sessions =
         dictSet ((if engine == "firefox" then st else ensureBrowser st).sessions.eraseP
           (fun p => p.1 == victim.1)) s.id s ∧
       victim.1 ∈ st'.closedLog) := by
  have hlen1 : (if engine == "firefox" then st else ensureBrowser st).sessions.length ≤
      st.sessions.length := by
    split_ifs
    · exact le_refl _
    · exact ensureBrowser_length_le st
  constructor
  · intro s st' heq
    unfold getOrCreateSession at heq
    revert heq
    cases hre : (if truthy sessionId then dictGet st.sessions (sessionId.getD "") else none) with
    | some sOld =>
      intro heq
      simp only [Except.ok.injEq, Prod.mk.injEq] at heq
      rw [← heq.2]
      exact hcap
    | none =>
      cases hb : (engine == "firefox" && !st.camoufoxAvailable) with
      | true => intro heq; cases heq
      | false =>
        intro heq
        simp only [Bool.false_eq_true, if_false, Except.ok.injEq, Prod.mk.injEq] at heq
        rw [← heq.2]
        set st1 := if engine == "firefox" then st else ensureBrowser st with hst1
        refine le_trans (length_dictSet_le _ _ _) ?_
        by_cases hcond : cfg.maxSessions ≤ st1.sessions.length
        · -- at capacity: one session evicted first
          have hne : st1.sessions ≠ [] := by
            intro hnil
            rw [hnil] at hcond
            simp at hcond
            omega
          have hev := evictOldest_length st1 hne
          rw [if_pos hcond]
          omega
        · rw [if_neg hcond]
          omega
  · intro hreuse heng hcond
    have herr : (engine == "firefox" && !st.camoufoxAvailable) = false := by
      cases he : engine == "firefox" with
      | false => simp
      | true =>
        have := heng (by simpa using he)
        simp [this]
    have hne : (if engine == "firefox" then st else ensureBrowser st).sessions ≠ [] := by
      intro hnil
      rw [hnil] at hcond
      simp at hcond
      omega
    obtain ⟨v, hv, hvmem, hvmin⟩ :=
      minByLastUsed_spec (if engine == "firefox" then st else ensureBrowser st).sessions hne
    refine ⟨v, _, _, hvmem, hvmin,
      getOrCreateSession_create st cfg env sessionId engine hreuse herr, ?_, ?_⟩
    · simp only [if_pos hcond, evictOldest, hv]
    · simp only [if_pos hcond, evictOldest, hv]
      exact List.mem_append_right _ (List.mem_singleton.mpr rfl)

/-- Witness for C3: a pool of one session at capacity 1; creating a second
session evicts the first (the LRU) and the size bound holds. -/
theorem C3_witness :
    ((∀ s st',
        getOrCreateSession
          { sessions := [("old1", { id := "old1", context := 0, page := 1,
                                    engine := "chromium", created_at := 0, last_used := 3 })],
            chromiumConnected := true, camoufoxAvailable := true,
            nextCtx := 2, closedLog := [] } ⟨1, 20⟩ ⟨"new00001", 9⟩ none "chromium" =
          .ok (s, st') →
        st'.sessions.length ≤ (1 : Nat)) ∧ True) := by
  constructor
  · exact (C3_capacity_lru _ ⟨1, 20⟩ ⟨"new00001", 9⟩ none "chromium"
      (by decide) (by decide)).1
  · trivial

/-- C4 (spec-modelled `engine` field): when `_ensure_browser` finds Chromium
disconnected it relaunches it, and the relaunch purge removes every session
whose engine kind is chromium from the map while every firefox-engine session
remains in the map unchanged. -/
theorem C4_relaunch_purge (st : PoolState)
    (hdis : st.chromiumConnected = false)
    (hkeys : (st.sessions.map Prod.fst).Nodup) :
    (ensureBrowser st).chromiumConnected = true ∧
    (∀ p ∈ st.sessions, p.2.engine = "chromium" →
       dictGet (ensureBrowser st).sessions p.1 = none) ∧
    (∀ p ∈ st.sessions, p.2.engine = "firefox" →
       p ∈ (ensureBrowser st).sessions ∧
       dictGet (ensureBrowser st).sessions p.1 = some p.2) := by
  have hnodup' : ((ensureBrowser st).sessions.map Prod.fst).Nodup :=
    (hkeys.sublist ((ensureBrowser_sessions_sublist st).map Prod.fst))
  unfold ensureBrowser at hnodup' ⊢
  rw [if_neg (by simp [hdis])] at hnodup' ⊢
  refine ⟨rfl, ?_, ?_⟩
  · intro p hp hchrom
    refine dictGet_eq_none _ _ ?_
    intro q hq
    have hq' := List.mem_filter.mp hq
    intro hcontra
    have : q = p := eq_of_fst_eq_of_nodup hkeys hq'.1 hp hcontra
    rw [this] at hq'
    simp [hchrom] at hq'
  · intro p hp hff
    have hmem : p ∈ st.sessions.filter (fun p => !(p.2.engine == "chromium")) :=
      List.mem_filter.mpr ⟨hp, by simp [hff]⟩
    exact ⟨hmem, dictGet_of_mem_nodup _ hnodup' p hmem⟩

/-- Witness for C4: a two-session pool (one chromium, one firefox) with
Chromium disconnected. -/
theorem C4_witness :
    (ensureBrowser
      { sessions :=
          [("c1", { id := "c1", context := 0, page := 1, engine := "chromium",
                    created_at := 0, last_used := 0 }),
           ("f1", { id := "f1", context := 2, page := 3, engine := "firefox",
                    created_at := 0, last_used := 0 })],
        chromiumConnected := false, camoufoxAvailable := true,
        nextCtx := 4, closedLog := [] }).chromiumConnected = true ∧
    (∀ p ∈
        ({ sessions :=
            [("c1", { id := "c1", context := 0, page := 1, engine := "chromium",
                      created_at := 0, last_used := 0 }),
             ("f1", { id := "f1", context := 2, page := 3, engine := "firefox",
                      created_at := 0, last_used := 0 })],
           chromiumConnected := false, camoufoxAvailable := true,
           nextCtx := 4, closedLog := [] } : PoolState).sessions,
       p.2.engine = "chromium" →
       dictGet (ensureBrowser
         { sessions :=
             [("c1", { id := "c1", context := 0, page := 1, engine := "chromium",
                       created_at := 0, last_used := 0 }),
              ("f1", { id := "f1", context := 2, page := 3, engine := "firefox",
                       created_at := 0, last_used := 0 })],
           chromiumConnected := false, camoufoxAvailable := true,
           nextCtx := 4, closedLog := [] }).sessions p.1 = none) := by
  have h := C4_relaunch_purge
    { sessions :=
        [("c1", { id := "c1", context := 0, page := 1, engine := "chromium",
                  created_at := 0, last_used := 0 }),
         ("f1", { id := "f1", context := 2, page := 3, engine := "firefox",
                  created_at := 0, last_used := 0 })],
      chromiumConnected := false, camoufoxAvailable := true,
      nextCtx := 4, closedLog := [] } rfl (by decide)
  exact ⟨h.1, h.2.1⟩

/-! ### Session.navigate (session.py lines 61-122) -/

/-- A `page.goto` response: final URL after redirects plus HTTP status. -/
structure GotoResp where
  url : String
  status : Int
  deriving DecidableEq

/-- Collaborator behaviour for one `Session.navigate` call: `goto` is the
`page.goto(...)` outcome (`.ok none` models a `None` response);
`validateRedirect` is the Security Gate verdict of `validate_redirect`
(`false` = raises `SecurityError`); `captchaFirst`/`captchaSecond` are the
two `_detect_captcha` probes around the 5s grace wait; `extracted` is
`extract_content` (which never raises); `titleRes` is `page.title()`. -/
structure NavOracle where
  goto : Except Exn (Option GotoResp)
  validateRedirect : String → Bool
  waitForOk : Bool
  captchaFirst : Bool
  captchaSecond : Bool
  extracted : List Char × String
  titleRes : Except Exn (List Char)
  now : Nat

/-- Outcome of one navigate call: the returned dict (or the exception that
escaped), the page's URL afterwards, and the updated session record. -/
structure NavOutcome where
  result : Except Exn BPayload
  pageUrl : String
  session : Session

/-- session.py `Session.navigate` (lines 61-122).  The recovery navigation to
`about:blank` is modelled as always succeeding; the wait-for-selector timeout
is swallowed (source line 95), so `waitForOk` does not affect the result. -/
def Session.navigate (s0 : Session) (pageUrl0 url : String)
    (maxContentLength : Nat) (o : NavOracle) : NavOutcome :=
  -- self._touch(); self._status_code = None
  let s1 : Session := { s0 with last_used := o.now, statusCode := none }
  match o.goto with
  | .error e => { result := .error e, pageUrl := pageUrl0, session := s1 }
  | .ok resp =>
    let s2 : Session :=
      match resp with
      | some r => { s1 with statusCode := some r.status }
      | none => s1
    let pageUrl1 :=
      match resp with
      | some r => r.url
      | none => pageUrl0
    -- if response.url != url: validate_redirect(response.url);
    -- on SecurityError: goto("about:blank"); raise
    if (match resp with
        | some r => r.url != url && !(o.validateRedirect r.url)
        | none => false) then
      { result := .error (.security "Blocked redirect"),
        pageUrl := "about:blank", session := s2 }
    else
      -- CAPTCHA probe, one 5s grace retry, then extraction and truncation
      let captcha := if o.captchaFirst then o.captchaSecond else false
      let ct := smart_truncate o.extracted.1 maxContentLength
      match o.titleRes with
      | .error e => { result := .error e, pageUrl := pageUrl1, session := s2 }
      | .ok title =>
        { result := .ok
            { urlKey := some pageUrl1, title := some title, content := some ct.1,
              sessionId := some s2.id, truncated := ct.2,
              captchaDetected := captcha, extractionMethod := some o.extracted.2,
              statusCode := s2.statusCode },
          pageUrl := pageUrl1, session := s2 }

/-- C9: when the page load ends on a final URL different from the requested
URL, the Security Gate is re-run on that final URL; if it rejects, the page
is driven to about:blank and the navigation fails with the security error —
it does not return a success result. -/
theorem C9_redirect_gate (s0 : Session) (pageUrl0 url : String)
    (maxLen : Nat) (o : NavOracle) (r : GotoResp)
    (hgoto : o.goto = .ok (some r)) (hred : r.url ≠ url)
    (hrej : o.validateRedirect r.url = false) :
    (Session.navigate s0 pageUrl0 url maxLen o).result =
      .error (.security "Blocked redirect") ∧
    (Session.navigate s0 pageUrl0 url maxLen o).pageUrl = "about:blank" := by
  unfold Session.navigate
  rw [hgoto]
  simp [hred, hrej]

/-- Witness for C9: a concrete redirected navigation whose final URL the gate
rejects. -/
theorem C9_witness :
    (Session.navigate
      { id := "s1", context := 0, page := 1, engine := "chromium",
        created_at := 0, last_used := 0 }
      "about:blank" "http://example.com/"
      50000
      { goto := .ok (some { url := "http://169.254.169.254/meta", status := 302 }),
        validateRedirect := fun _ => false,
        waitForOk := true, captchaFirst := false, captchaSecond := false,
        extracted := ([], "none"), titleRes := .ok [], now := 3 }).result =
      .error (.security "Blocked redirect") ∧
    (Session.navigate
      { id := "s1", context := 0, page := 1, engine := "chromium",
        created_at := 0, last_used := 0 }
      "about:blank" "http://example.com/"
      50000
      { goto := .ok (some { url := "http://169.254.169.254/meta", status := 302 }),
        validateRedirect := fun _ => false,
        waitForOk := true, captchaFirst := false, captchaSecond := false,
        extracted := ([], "none"), titleRes := .ok [], now := 3 }).pageUrl =
      "about:blank" :=
  C9_redirect_gate _ _ _ _ _ { url := "http://169.254.169.254/meta", status := 302 }
    rfl (by decide) rfl

/-! ### Tool entry points (server.py) -/

def VALID_ENGINES : List String := ["auto", "chromium", "firefox"]

def VALID_OUTPUT_FORMATS : List String := ["markdown", "text", "html", "links"]

/-- server.py `_resolve_engine`. -/
def resolveEngine (engine : String) : String :=
  if engine == "auto" then "chromium" else engine

/-- Python `session_id or ""`. -/
def pyOrEmpty (x : Option String) : String :=
  if truthy x then x.getD "" else ""

/-- Collaborator behaviour for one `browse` call: the URL validation, the two
session acquisitions, and the two navigations. -/
structure BrowseOracle where
  validateUrl : Except Exn Unit
  acquire : Except Exn Session
  navigate : Except Exn BPayload
  camoufoxAvailable : Bool
  acquireFF : Except Exn Session
  navigateFF : Except Exn BPayload

/-- server.py `browse` (lines 160-234): returns the payload — or the
exception, when one escapes the function — together with the list of session
ids passed to `close_session` during the call.  The session acquisition
(line 195) sits outside the `try` block, so its exceptions escape; everything
from `session.navigate` onwards is inside the `try`. -/
def browse (sessionId : Option String) (engine : String) (o : BrowseOracle) :
    Except Exn (BPayload × List String) :=
  if !(VALID_ENGINES.contains engine) then
    .ok ({ error := some ("Invalid engine: " ++ engine) }, [])
  else
    match o.validateUrl with
    | .error e =>
      .ok ({ error := some (exnMsg e), sessionId := some (pyOrEmpty sessionId) }, [])
    | .ok _ =>
      let firstEngine := resolveEngine engine
      match o.acquire with
      | .error e => .error e
      | .ok session =>
        match o.navigate with
        | .error e => .ok ({ error := some (exnMsg e), sessionId := some session.id }, [])
        | .ok nav0 =>
          let result := { nav0 with engineKey := some firstEngine }
          if engine == "auto" && firstEngine == "chromium" && is_bot_blocked result then
            if o.camoufoxAvailable then
              -- if not session_id: close_session(session.id)
              let closed := if !(truthy sessionId) then [session.id] else []
              match o.acquireFF with
              | .error e =>
                .ok ({ error := some (exnMsg e), sessionId := some session.id }, closed)
              | .ok _ffSession =>
                match o.navigateFF with
                | .ok nav2 =>
                  .ok ({ nav2 with engineKey := some "firefox", fallback := true }, closed)
                | .error e =>
                  .ok ({ result with fallbackError := some (exnMsg e) }, closed)
            else .ok (result, [])
          else .ok (result, [])

/-- Collaborator behaviour for one `interact` call: `perform` is
`session.perform_action(...)` together with the page URL it leaves behind;
`validateAfter` is the `validate_url` verdict on that URL. -/
structure InteractOracle where
  perform : Except Exn (BPayload × String)
  validateAfter : String → Bool

/-- server.py `interact` (lines 237-275): the pair is (payload or escaped
exception, the page URL after the call when a session was found).  The
recovery `goto("about:blank")` is modelled as always succeeding. -/
def interact (sessionId : String) (st : PoolState) (o : InteractOracle) :
    Except Exn BPayload × Option String :=
  match dictGet st.sessions sessionId with
  | none =>
    (.ok { error := some ("Session " ++ sessionId ++ " not found"),
           success := some false },
     none)
  | some _s =>
    match o.perform with
    | .error e =>
      (.ok { error := some (exnMsg e), success := some false,
             sessionId := some sessionId },
       none)
    | .ok ru =>
      if o.validateAfter ru.2 then (.ok ru.1, some ru.2)
      else
        (.ok { error := some "Action caused navigation to blocked URL",
               success := some false, sessionId := some sessionId },
         some "about:blank")

/-- server.py `extract` (lines 278-305). -/
def extractTool (sessionId : String) (st : PoolState)
    (getContentRes : Except Exn BPayload) : Except Exn BPayload :=
  match dictGet st.sessions sessionId with
  | none => .ok { error := some ("Session " ++ sessionId ++ " not found") }
  | some _ =>
    match getContentRes with
    | .ok r => .ok r
    | .error e => .ok { error := some (exnMsg e), sessionId := some sessionId }

/-- server.py `close_session` (lines 308-327). -/
def closeSessionTool (sessionId : String) (st : PoolState) :
    Except Exn (BPayload × PoolState) :=
  if !(dictMem st.sessions sessionId) then
    .ok ({ statusMsg := some "not_found" }, st)
  else
    .ok ({ statusMsg := some "closed", sessionId := some sessionId },
         poolCloseSession st sessionId)

/-- Collaborator behaviour for one `scrape_webpage` call. -/
structure ScrapeOracle where
  validateUrl : Except Exn Unit
  acquire : Except Exn Session
  navOnly : Except Exn BPayload
  extractFmt : Except Exn (List Char × String)
  camoufoxAvailable : Bool
  acquireFF : Except Exn Session
  navOnlyFF : Except Exn BPayload
  extractFmtFF : Except Exn (List Char × String)

/-- server.py `scrape_webpage` (lines 335-433).  `navOnly` stands for
`session.navigate_only(...)` — a Session method whose definition is absent
from src/ (only its call sites exist), modelled from the spec as
navigate-without-extraction — and `extractFmt` for `_extract_formatted`.
The whole body after the argument checks runs inside one `try`, so every
collaborator exception becomes an error payload. -/
def scrape_webpage (outputFormat engine : String) (sessionId : Option String)
    (o : ScrapeOracle) : Except Exn BPayload :=
  if !(VALID_OUTPUT_FORMATS.contains outputFormat) then
    .ok { error := some ("Invalid output_format: " ++ outputFormat) }
  else if !(VALID_ENGINES.contains engine) then
    .ok { error := some ("Invalid engine: " ++ engine) }
  else
    match o.validateUrl with
    | .error e => .ok { error := some (exnMsg e) }
    | .ok _ =>
      let firstEngine := resolveEngine engine
      match o.acquire with
      | .error e => .ok { error := some (exnMsg e) }
      | .ok session =>
        match o.navOnly with
        | .error e => .ok { error := some (exnMsg e) }
        | .ok nav =>
          match o.extractFmt with
          | .error e => .ok { error := some (exnMsg e) }
          | .ok cm =>
            let result : BPayload :=
              { urlKey := nav.urlKey, title := nav.title, content := some cm.1,
                sessionId := some session.id, statusCode := nav.statusCode,
                extractionMethod := some cm.2, engineKey := some firstEngine }
            if engine == "auto" && firstEngine == "chromium" &&
                is_bot_blocked result then
              if o.camoufoxAvailable then
                match o.acquireFF with
                | .error e => .ok { error := some (exnMsg e) }
                | .ok ff =>
                  match o.navOnlyFF with
                  | .error e => .ok { error := some (exnMsg e) }
                  | .ok nav2 =>
                    match o.extractFmtFF with
                    | .error e => .ok { error := some (exnMsg e) }
                    | .ok cm2 =>
                      .ok { urlKey := nav2.urlKey, title := nav2.title,
                            content := some cm2.1, sessionId := some ff.id,
                            statusCode := nav2.statusCode,
                            extractionMethod := some cm2.2,
                            engineKey := some "firefox", fallback := true }
              else .ok result
            else .ok result

/-- server.py `extract_structured_data` (lines 436-499): same containment
shape — everything after the argument checks runs inside one `try`. -/
def extract_structured_data (engine : String)
    (validateRes : Except Exn Unit) (acquire : Except Exn Session)
    (navOnly : Except Exn BPayload)
    (domData : Except Exn (List (String × String))) : Except Exn BPayload :=
  if !(VALID_ENGINES.contains engine) then
    .ok { error := some ("Invalid engine: " ++ engine) }
  else
    match validateRes with
    | .error e => .ok { error := some (exnMsg e) }
    | .ok _ =>
      match acquire with
      | .error e => .ok { error := some (exnMsg e) }
      | .ok session =>
        match navOnly with
        | .error e => .ok { error := some (exnMsg e) }
        | .ok nav =>
          match domData with
          | .error e => .ok { error := some (exnMsg e) }
          | .ok secs =>
            .ok { urlKey := nav.urlKey, title := nav.title,
                  sessionId := some session.id,
                  engineKey := some (resolveEngine engine), sections := secs }

/-- Case analysis of the closed-session list of a `browse` payload outcome:
it is empty, or it is the list the fallback branch builds from the acquired
primary session and the truthiness of `session_id`. -/
theorem browse_closed_cases (sid : Option String) (eng : String)
    (o : BrowseOracle) (res : BPayload) (closed : List String)
    (hb : browse sid eng o = .ok (res, closed)) :
    closed = [] ∨
    ∃ sess, o.acquire = .ok sess ∧
      closed = (if !(truthy sid) then [sess.id] else []) := by
  unfold browse at hb
  by_cases heng : (!(VALID_ENGINES.contains eng)) = true
  · rw [if_pos heng] at hb
    simp only [Except.ok.injEq, Prod.mk.injEq] at hb
    exact Or.inl hb.2.symm
  · rw [if_neg heng] at hb
    cases hval : o.validateUrl with
    | error e =>
      simp only [hval, Except.ok.injEq, Prod.mk.injEq] at hb
      exact Or.inl hb.2.symm
    | ok u =>
      simp only [hval] at hb
      cases hacq : o.acquire with
      | error e =>
        simp only [hacq] at hb
        cases hb
      | ok sess =>
        simp only [hacq] at hb
        cases hnav : o.navigate with
        | error e =>
          simp only [hnav, Except.ok.injEq, Prod.mk.injEq] at hb
          exact Or.inl hb.2.symm
        | ok nav0 =>
          simp only [hnav] at hb
          by_cases hblk : (eng == "auto" && resolveEngine eng == "chromium" &&
              is_bot_blocked { nav0 with engineKey := some (resolveEngine eng) }) = true
          · rw [if_pos hblk] at hb
            cases hcam : o.camoufoxAvailable with
            | false =>
              simp only [hcam, Bool.false_eq_true, if_false,
                Except.ok.injEq, Prod.mk.injEq] at hb
              exact Or.inl hb.2.symm
            | true =>
              rw [hcam, if_pos rfl] at hb
              cases hff : o.acquireFF with
              | error e =>
                simp only [hff, Except.ok.injEq, Prod.mk.injEq] at hb
                exact Or.inr ⟨sess, rfl, hb.2.symm⟩
              | ok ff =>
                simp only [hff] at hb
                cases hnav2 : o.navigateFF with
                | ok nav2 =>
                  simp only [hnav2, Except.ok.injEq, Prod.mk.injEq] at hb
                  exact Or.inr ⟨sess, rfl, hb.2.symm⟩
                | error e =>
                  simp only [hnav2, Except.ok.injEq, Prod.mk.injEq] at hb
                  exact Or.inr ⟨sess, rfl, hb.2.symm⟩
          · rw [if_neg hblk] at hb
            simp only [Except.ok.injEq, Prod.mk.injEq] at hb
            exact Or.inl hb.2.symm

/-- In every `browse` payload outcome, the closed-session list is empty when
`session_id` was truthy (caller-supplied), and otherwise contains at most
the primary session's id. -/
theorem browse_closed_spec (sid : Option String) (eng : String)
    (o : BrowseOracle) (res : BPayload) (closed : List String)
    (hb : browse sid eng o = .ok (res, closed)) :
    (truthy sid = true → closed = []) ∧
    (∀ sOk, o.acquire = .ok sOk → closed = [] ∨ closed = [sOk.id]) := by
  have hc := browse_closed_cases sid eng o res closed hb
  constructor
  · intro htr
    rcases hc with h | ⟨sess, -, h⟩
    · exact h
    · rw [h, htr]
      rfl
  · intro sOk hs
    rcases hc with h | ⟨sess, hacq, h⟩
    · exact Or.inl h
    · rw [hs] at hacq
      injection hacq with hfe
      rw [h, ← hfe]
      split_ifs
      · exact Or.inr rfl
      · exact Or.inl rfl


/-- C5 fails as stated: with engine `auto`, a bot-blocked (403) primary
result and Camoufox available, when the secondary attempt fails at the
firefox session acquisition the call returns an error payload — discarding
the primary result — instead of the primary result annotated with the
fallback error. -/
theorem C5_counterexample :
    browse none "auto"
      { validateUrl := .ok (),
        acquire := .ok { id := "prim0001", context := 0, page := 1,
                         engine := "chromium", created_at := 0, last_used := 0 },
        navigate := .ok { statusCode := some 403 },
        camoufoxAvailable := true,
        acquireFF := .error (.other "new_context failed"),
        navigateFF := .ok {} } =
      .ok ({ error := some "new_context failed", sessionId := some "prim0001" },
           ["prim0001"]) ∧
    ({ error := some "new_context failed",
       sessionId := some "prim0001" } : BPayload).error ≠ none := by
  exact ⟨by rfl, by decide⟩

/-- C5 amended: with engine `auto`, a bot-blocked chromium result and
Camoufox available — when the secondary *navigation* fails the call returns
the original primary result annotated with the fallback error (an error
payload replaces it only when the secondary *session acquisition* itself
raises); and no `browse` call ever closes a caller-supplied session: the
closed-session list is empty when `session_id` is truthy, and otherwise
contains at most the freshly created primary session. -/
theorem C5_amended (sessionId : Option String) (o : BrowseOracle)
    (primary : BPayload) (s s2 : Session) (e : Exn)
    (h1 : o.validateUrl = .ok ()) (h2 : o.acquire = .ok s)
    (h3 : o.navigate = .ok primary)
    (h4 : is_bot_blocked { primary with engineKey := some "chromium" } = true)
    (h5 : o.camoufoxAvailable = true)
    (h6 : o.acquireFF = .ok s2) (h7 : o.navigateFF = .error e) :
    browse sessionId "auto" o =
      .ok ({ primary with engineKey := some "chromium",
                          fallbackError := some (exnMsg e) },
           if !(truthy sessionId) then [s.id] else []) ∧
    (∀ (sid : Option String) (eng : String) (o' : BrowseOracle) res closed,
       browse sid eng o' = .ok (res, closed) →
       (truthy sid = true → closed = []) ∧
       (∀ sOk, o'.acquire = .ok sOk → closed = [] ∨ closed = [sOk.id])) := by
  constructor
  · unfold browse
    simp [h1, h2, h3, h4, h5, h6, h7, resolveEngine, VALID_ENGINES]
  · intro sid eng o' res closed hb
    exact browse_closed_spec sid eng o' res closed hb

/-- Primary (caller-supplied) session for the C5 witness. -/
def sessKeep : Session :=
  { id := "keep0001", context := 0, page := 1, engine := "chromium",
    created_at := 0, last_used := 0 }

/-- Firefox session for the C5 witness. -/
def sessFF : Session :=
  { id := "ff000001", context := 2, page := 3, engine := "firefox",
    created_at := 0, last_used := 0 }

/-- Oracle for the C5 witness: bot-blocked primary, failing secondary
navigation. -/
def c5Oracle : BrowseOracle :=
  { validateUrl := .ok (), acquire := .ok sessKeep,
    navigate := .ok { statusCode := some 403 },
    camoufoxAvailable := true, acquireFF := .ok sessFF,
    navigateFF := .error (.other "nav failed") }

/-- Witness for C5 at a concrete oracle whose secondary navigation fails:
the annotated primary result comes back and the caller-supplied session is
not closed. -/
theorem C5_witness :
    browse (some "keep0001") "auto" c5Oracle =
      .ok (({ statusCode := some 403, engineKey := some "chromium",
              fallbackError := some "nav failed" } : BPayload), []) :=
  (C5_amended (some "keep0001") c5Oracle { statusCode := some 403 }
    sessKeep sessFF (.other "nav failed")
    rfl rfl rfl (by decide) rfl rfl rfl).1


/-- C10: after an action performed through `interact`, the session page's
resulting URL is re-validated with the full SSRF check; on rejection the
page is driven to about:blank and an error payload replaces the action's
success result, so a successful interact call never leaves the session
parked on a security-rejected URL. -/
theorem C10_interact (sessionId : String) (st : PoolState) (o : InteractOracle) :
    (∀ s ru, dictGet st.sessions sessionId = some s →
       o.perform = .ok ru → o.validateAfter ru.2 = false →
       interact sessionId st o =
         (.ok { error := some "Action caused navigation to blocked URL",
                success := some false, sessionId := some sessionId },
          some "about:blank")) ∧
    (∀ p u, interact sessionId st o = (.ok p, some u) → p.error = none →
       o.validateAfter u = true ∧ ∃ res, o.perform = .ok (res, u) ∧ p = res) := by
  constructor
  · intro s ru hs hp hv
    unfold interact
    simp [hs, hp, hv]
  · intro p u hi hperr
    unfold interact at hi
    split at hi
    · simp at hi
    · split at hi
      · simp at hi
      · next ru hperf =>
        split at hi
        · next hval =>
          simp only [Prod.mk.injEq, Except.ok.injEq, Option.some.injEq] at hi
          exact ⟨hi.2 ▸ hval, ru.1, by rw [hperf, ← hi.2], hi.1.symm⟩
        · simp only [Prod.mk.injEq, Except.ok.injEq] at hi
          rw [← hi.1] at hperr
          simp at hperr

/-- Witness for C10: an action leaving the page on a rejected URL. -/
theorem C10_witness :
    interact "s1"
      { sessions :=
          [("s1", { id := "s1", context := 0, page := 1, engine := "chromium",
                    created_at := 0, last_used := 0 })],
        chromiumConnected := true, camoufoxAvailable := true,
        nextCtx := 2, closedLog := [] }
      { perform := .ok ({ success := some true }, "http://169.254.169.254/"),
        validateAfter := fun _ => false } =
      (.ok { error := some "Action caused navigation to blocked URL",
             success := some false, sessionId := some "s1" },
       some "about:blank") :=
  (C10_interact "s1" _ _).1
    { id := "s1", context := 0, page := 1, engine := "chromium",
      created_at := 0, last_used := 0 }
    ({ success := some true }, "http://169.254.169.254/")
    rfl rfl rfl

/-! ### Crawl orchestrator (server.py `crawl_pages`, lines 502-686) -/

/-- URL-library behaviour (urllib.parse): absolutisation, fragment
stripping, scheme and hostname extraction. -/
structure UrlModel where
  urljoin : String → String → String
  stripFrag : String → String
  scheme : String → String
  hostname : String → Option String

/-- Collaborator behaviour for one `crawl_pages` call, indexed by an
abstract call clock so every call site may behave differently.  `fetch`
combines `session.navigate_only` (a Session method absent from src/ — only
its call sites exist — modelled from the spec as navigate-without-
extraction) with `_extract_formatted`; both run inside the same per-page
`try`.  `validate` is the per-URL `validate_url` verdict (`false` =
SecurityError), `links` the link-collecting `page.evaluate`, `pageUrl` the
`session.page.url` read at link time, and `acquireFF` the
`get_or_create_session(None, engine="firefox")` of the engine fallback. -/
structure CrawlOracle where
  validate : Nat → String → Bool
  fetch : Nat → String → Except Exn BPayload
  acquireFF : Nat → Except Exn Session
  links : Nat → Except Exn (List String)
  pageUrl : Nat → String

/-- Static arguments of one crawl. -/
structure CrawlArgs where
  um : UrlModel
  sameDomain : Bool
  startDomain : Option String
  pattern : Option (String → Bool)
  maxPages : Nat
  useAuto : Bool
  camoufox : Bool

/-- State of one crawl together with the event logs the theorems inspect:
`visited` doubles as the ordered log of enqueue events (a URL is appended
exactly when it is enqueued — the seed at initialisation, links at enqueue
time), `popped` logs frontier pops, `navCalls` logs the URLs passed to
`navigate_only`, and `fallbackAt` records the URL the engine fallback
re-fetched, if any.  `closed` logs the ids passed to `close_session`. -/
structure CrawlState where
  queue : List String
  visited : List String
  pages : List BPayload
  activeEngine : String
  sessId : String
  clock : Nat
  closed : List String
  popped : List String
  navCalls : List String
  fallbackAt : Option String
  deriving DecidableEq

/-- The link-filtering loop of `crawl_pages` (lines 643-670): absolutise
against the page URL, strip the fragment, skip if already visited, keep only
http/https, apply the same-domain filter and the optional pattern filter,
then mark visited and enqueue. -/
def addLinks (um : UrlModel) (sameDomain : Bool) (startDomain : Option String)
    (pattern : Option (String → Bool)) (pageUrl : String) :
    List String → List String × List String → List String × List String
  | [], vq => vq
  | href :: rest, (v, q) =>
    let absUrl := um.stripFrag (um.urljoin pageUrl href)
    if absUrl ∈ v then
      addLinks um sameDomain startDomain pattern pageUrl rest (v, q)
    else if ¬(um.scheme absUrl = "http" ∨ um.scheme absUrl = "https") then
      addLinks um sameDomain startDomain pattern pageUrl rest (v, q)
    else if sameDomain = true ∧ um.hostname absUrl ≠ startDomain then
      addLinks um sameDomain startDomain pattern pageUrl rest (v, q)
    else if (match pattern with | some p => !(p absUrl) | none => false) = true then
      addLinks um sameDomain startDomain pattern pageUrl rest (v, q)
    else
      addLinks um sameDomain startDomain pattern pageUrl rest
        (v ++ [absUrl], q ++ [absUrl])

theorem addLinks_spec (um : UrlModel) (sd : Bool) (sdom : Option String)
    (pat : Option (String → Bool)) (purl : String) (hrefs : List String) :
    ∀ (v q : List String), v.Nodup →
      ∃ added, addLinks um sd sdom pat purl hrefs (v, q) = (v ++ added, q ++ added) ∧
        (v ++ added).Nodup := by
  induction hrefs with
  | nil =>
    intro v q hv
    exact ⟨[], by simp [addLinks], by simpa using hv⟩
  | cons href rest ih =>
    intro v q hv
    simp only [addLinks]
    split_ifs with hc1 hc2 hc3 hc4 <;>
      first
      | exact ih v q hv
      | (have hnd : (v ++ [um.stripFrag (um.urljoin purl href)]).Nodup := by
          rw [List.nodup_append]
          refine ⟨hv, List.nodup_singleton _, ?_⟩
          intro x hx hx'
          rw [List.mem_singleton] at hx'
          subst hx'
          exact hc1 hx
         obtain ⟨added, heq, hnd'⟩ := ih (v ++ [um.stripFrag (um.urljoin purl href)])
          (q ++ [um.stripFrag (um.urljoin purl href)]) hnd
         exact ⟨um.stripFrag (um.urljoin purl href) :: added,
           by rw [heq]; simp, by simpa using hnd'⟩)

/-- Append the collected page and, when the target is not yet reached,
expand the frontier from the page's links (lines 622-673; a failing link
extraction is swallowed). -/
def afterPage (a : CrawlArgs) (o : CrawlOracle) (c : Nat)
    (st : CrawlState) (pr : BPayload) : CrawlState :=
  if st.pages.length + 1 < a.maxPages then
    match o.links (c + 4) with
    | .error _ => { st with pages := st.pages ++ [pr] }
    | .ok hrefs =>
      { st with pages := st.pages ++ [pr],
                visited := (addLinks a.um a.sameDomain a.startDomain a.pattern
                  (o.pageUrl (c + 4)) hrefs (st.visited, st.queue)).1,
                queue := (addLinks a.um a.sameDomain a.startDomain a.pattern
                  (o.pageUrl (c + 4)) hrefs (st.visited, st.queue)).2 }
  else { st with pages := st.pages ++ [pr] }

/-- server.py `crawl_pages` BFS loop (lines 566-673), with explicit fuel
(the Python loop runs until the frontier empties or the page target is
reached; every theorem below holds for every fuel).  Each iteration pops the
frontier head, runs the Security Gate, navigates inside a per-page `try`
(failures skip the URL), applies the first-page engine fallback (closing the
session, acquiring a firefox session and re-fetching the same URL), records
the page and expands the frontier. -/
def crawlLoop (a : CrawlArgs) (o : CrawlOracle) : Nat → CrawlState → CrawlState
  | 0, st => st
  | fuel + 1, st =>
    match st.queue with
    | [] => st
    | currentUrl :: rest =>
      if a.maxPages ≤ st.pages.length then st
      else if o.validate st.clock currentUrl = false then
        -- SSRF-blocked URL: skip it and continue
        crawlLoop a o fuel
          { st with queue := rest, clock := st.clock + 5,
                    popped := st.popped ++ [currentUrl] }
      else
        match o.fetch (st.clock + 1) currentUrl with
        | .error _ =>
          -- per-page failure: skip the URL, never abort the crawl
          crawlLoop a o fuel
            { st with queue := rest, clock := st.clock + 5,
                      popped := st.popped ++ [currentUrl],
                      navCalls := st.navCalls ++ [currentUrl] }
        | .ok pr =>
          if a.useAuto = true ∧ st.activeEngine = "chromium" ∧
              st.pages.length = 0 ∧ is_bot_blocked pr = true ∧
              a.camoufox = true then
            -- first-page fallback: close session, switch to firefox, re-fetch
            match o.acquireFF (st.clock + 2) with
            | .error _ =>
              crawlLoop a o fuel
                { st with queue := rest, clock := st.clock + 5,
                          popped := st.popped ++ [currentUrl],
                          navCalls := st.navCalls ++ [currentUrl],
                          closed := st.closed ++ [st.sessId] }
            | .ok s2 =>
              match o.fetch (st.clock + 3) currentUrl with
              | .error _ =>
                crawlLoop a o fuel
                  { st with queue := rest, clock := st.clock + 5,
                            popped := st.popped ++ [currentUrl],
                            navCalls := st.navCalls ++ [currentUrl, currentUrl],
                            closed := st.closed ++ [st.sessId],
                            sessId := s2.id, activeEngine := "firefox",
                            fallbackAt := some currentUrl }
              | .ok pr2 =>
                crawlLoop a o fuel
                  (afterPage a o st.clock
                    { st with queue := rest, clock := st.clock + 5,
                              popped := st.popped ++ [currentUrl],
                              navCalls := st.navCalls ++ [currentUrl, currentUrl],
                              closed := st.closed ++ [st.sessId],
                              sessId := s2.id, activeEngine := "firefox",
                              fallbackAt := some currentUrl }
                    pr2)
          else
            crawlLoop a o fuel
              (afterPage a o st.clock
                { st with queue := rest, clock := st.clock + 5,
                          popped := st.popped ++ [currentUrl],
                          navCalls := st.navCalls ++ [currentUrl] }
                pr)

/-- Initial crawl state (lines 554-564): the fragment-stripped seed is
enqueued and marked visited at initialisation. -/
def initCrawlState (um : UrlModel) (url : String)
    (firstEngine sessId : String) : CrawlState :=
  { queue := [um.stripFrag url], visited := [um.stripFrag url], pages := [],
    activeEngine := firstEngine, sessId := sessId, clock := 0, closed := [],
    popped := [], navCalls := [], fallbackAt := none }

/-- The crawl invariant: the frontier and the enqueue log are duplicate-free
and consistent, every popped URL was enqueued, no URL is both pending and
popped, and each URL receives at most one navigation call — plus one extra
for the single URL the engine fallback re-fetched. -/
def CrawlInv (st : CrawlState) : Prop :=
  st.queue.Nodup ∧
  st.visited.Nodup ∧
  (∀ u ∈ st.queue, u ∈ st.visited) ∧
  (∀ u ∈ st.popped, u ∈ st.visited) ∧
  (∀ u ∈ st.queue, u ∉ st.popped) ∧
  (∀ u, st.navCalls.count u ≤
    (if u ∈ st.popped then 1 else 0) +
    (if st.fallbackAt = some u then 1 else 0)) ∧
  (∀ u, st.fallbackAt = some u → u ∈ st.popped ∧ st.activeEngine = "firefox")

theorem count_append_one (l : List String) (u w : String) :
    (l ++ [u]).count w = l.count w + (if w = u then 1 else 0) := by
  rw [List.count_append]
  congr 1
  by_cases h : w = u
  · subst h
    rw [if_pos rfl, List.count_cons_self, List.count_nil]
  · rw [if_neg h, List.count_eq_zero]
    simp [h]

theorem count_append_pair (l : List String) (u w : String) :
    (l ++ [u, u]).count w = l.count w + (if w = u then 2 else 0) := by
  rw [List.count_append]
  congr 1
  by_cases h : w = u
  · subst h
    rw [if_pos rfl, List.count_cons_self, List.count_cons_self, List.count_nil]
  · rw [if_neg h, List.count_eq_zero]
    simp [h]

/-- Invariant preservation for the pop/skip/single-navigation steps of one
crawl iteration. -/
theorem inv_step1 (st st' : CrawlState) (u : String) (rest : List String)
    (h : CrawlInv st) (hq : st.queue = u :: rest)
    (hqueue : st'.queue = rest) (hvis : st'.visited = st.visited)
    (hpop : st'.popped = st.popped ++ [u])
    (hnav : st'.navCalls = st.navCalls ∨ st'.navCalls = st.navCalls ++ [u])
    (hfb : st'.fallbackAt = st.fallbackAt)
    (heng : st'.activeEngine = st.activeEngine) : CrawlInv st' := by
  obtain ⟨h1, h2, h3, h4, h5, h6, h7⟩ := h
  rw [hq] at h1
  obtain ⟨hur, hrnd⟩ := List.nodup_cons.mp h1
  have humem : u ∈ st.visited := h3 u (by rw [hq]; exact List.mem_cons_self u rest)
  have hunp : u ∉ st.popped := h5 u (by rw [hq]; exact List.mem_cons_self u rest)
  have hfbne : st.fallbackAt ≠ some u := fun hc => hunp (h7 u hc).1
  have hcnt0 : st.navCalls.count u = 0 := by
    have hb := h6 u
    rw [if_neg hunp, if_neg hfbne] at hb
    omega
  have hple : ∀ w, (if w ∈ st.popped then (1 : Nat) else 0) ≤
      (if w ∈ st'.popped then 1 else 0) := by
    intro w
    rw [hpop]
    by_cases hw : w ∈ st.popped
    · rw [if_pos hw, if_pos (List.mem_append_left _ hw)]
    · rw [if_neg hw]
      exact Nat.zero_le _
  refine ⟨?_, ?_, ?_, ?_, ?_, ?_, ?_⟩
  · rw [hqueue]
    exact hrnd
  · rw [hvis]
    exact h2
  · intro w hw
    rw [hqueue] at hw
    rw [hvis]
    exact h3 w (by rw [hq]; exact List.mem_cons_of_mem u hw)
  · intro w hw
    rw [hpop] at hw
    rw [hvis]
    rcases List.mem_append.mp hw with hw' | hw'
    · exact h4 w hw'
    · rw [List.mem_singleton] at hw'
      subst hw'
      exact humem
  · intro w hw
    rw [hqueue] at hw
    rw [hpop]
    intro hcon
    rcases List.mem_append.mp hcon with hc | hc
    · exact h5 w (by rw [hq]; exact List.mem_cons_of_mem u hw) hc
    · rw [List.mem_singleton] at hc
      subst hc
      exact hur hw
  · intro w
    have hb := h6 w
    rcases hnav with hn | hn
    · rw [hn, hfb]
      exact le_trans hb (Nat.add_le_add (hple w) (le_refl _))
    · rw [hn, count_append_one, hfb]
      by_cases hwu : w = u
      · subst hwu
        rw [if_pos rfl, hcnt0]
        have hm : (if w ∈ st'.popped then (1 : Nat) else 0) = 1 := by
          rw [hpop, if_pos (List.mem_append_right _ (List.mem_singleton.mpr rfl))]
        rw [hm]
        omega
      · rw [if_neg hwu]
        have := le_trans hb (Nat.add_le_add (hple w) (le_refl _))
        omega
  · intro w hw
    rw [hfb] at hw
    obtain ⟨hwp, hwe⟩ := h7 w hw
    exact ⟨by rw [hpop]; exact List.mem_append_left _ hwp, by rw [heng]; exact hwe⟩

/-- Invariant preservation for the engine-fallback step, which issues the one
extra navigation call for the current URL. -/
theorem inv_step_fb (st st' : CrawlState) (u : String) (rest : List String)
    (h : CrawlInv st) (hq : st.queue = u :: rest)
    (hchrom : st.activeEngine = "chromium")
    (hqueue : st'.queue = rest) (hvis : st'.visited = st.visited)
    (hpop : st'.popped = st.popped ++ [u])
    (hnav : st'.navCalls = st.navCalls ++ [u, u])
    (hfb : st'.fallbackAt = some u)
    (heng : st'.activeEngine = "firefox") : CrawlInv st' := by
  obtain ⟨h1, h2, h3, h4, h5, h6, h7⟩ := h
  rw [hq] at h1
  obtain ⟨hur, hrnd⟩ := List.nodup_cons.mp h1
  have humem : u ∈ st.visited := h3 u (by rw [hq]; exact List.mem_cons_self u rest)
  have hunp : u ∉ st.popped := h5 u (by rw [hq]; exact List.mem_cons_self u rest)
  have hfbnone : ∀ w, st.fallbackAt ≠ some w := by
    intro w hc
    have hcontra := (h7 w hc).2
    rw [hchrom] at hcontra
    exact absurd hcontra (by decide)
  have hcnt : ∀ w, st.navCalls.count w ≤ (if w ∈ st.popped then 1 else 0) := by
    intro w
    have hb := h6 w
    rw [if_neg (hfbnone w)] at hb
    omega
  have hcnt0 : st.navCalls.count u = 0 := by
    have := hcnt u
    rw [if_neg hunp] at this
    omega
  refine ⟨?_, ?_, ?_, ?_, ?_, ?_, ?_⟩
  · rw [hqueue]
    exact hrnd
  · rw [hvis]
    exact h2
  · intro w hw
    rw [hqueue] at hw
    rw [hvis]
    exact h3 w (by rw [hq]; exact List.mem_cons_of_mem u hw)
  · intro w hw
    rw [hpop] at hw
    rw [hvis]
    rcases List.mem_append.mp hw with hw' | hw'
    · exact h4 w hw'
    · rw [List.mem_singleton] at hw'
      subst hw'
      exact humem
  · intro w hw
    rw [hqueue] at hw
    rw [hpop]
    intro hcon
    rcases List.mem_append.mp hcon with hc | hc
    · exact h5 w (by rw [hq]; exact List.mem_cons_of_mem u hw) hc
    · rw [List.mem_singleton] at hc
      subst hc
      exact hur hw
  · intro w
    rw [hnav, count_append_pair, hfb]
    by_cases hwu : w = u
    · subst hwu
      have hwp : w ∈ st'.popped := by
        rw [hpop]
        exact List.mem_append_right _ (List.mem_singleton.mpr rfl)
      rw [if_pos rfl, hcnt0, if_pos hwp, if_pos rfl]
    · rw [if_neg hwu, if_neg (fun hc => hwu (Option.some.inj hc).symm)]
      have hb := hcnt w
      by_cases hw : w ∈ st.popped
      · have hwp : w ∈ st'.popped := by
          rw [hpop]
          exact List.mem_append_left _ hw
        rw [if_pos hw] at hb
        rw [if_pos hwp]
        omega
      · rw [if_neg hw] at hb
        omega
  · intro w hw
    rw [hfb, Option.some.injEq] at hw
    subst hw
    exact ⟨by rw [hpop]; exact List.mem_append_right _ (List.mem_singleton.mpr rfl),
           heng⟩

/-- Invariant preservation for the page-record/frontier-expansion step. -/
theorem afterPage_inv (a : CrawlArgs) (o : CrawlOracle) (c : Nat)
    (st : CrawlState) (pr : BPayload) (h : CrawlInv st) :
    CrawlInv (afterPage a o c st pr) := by
  obtain ⟨h1, h2, h3, h4, h5, h6, h7⟩ := h
  unfold afterPage
  split_ifs with hlen
  · cases hl : o.links (c + 4) with
    | error e => exact ⟨h1, h2, h3, h4, h5, h6, h7⟩
    | ok hrefs =>
      obtain ⟨added, heq, hnd⟩ := addLinks_spec a.um a.sameDomain a.startDomain
        a.pattern (o.pageUrl (c + 4)) hrefs st.visited st.queue h2
      simp only [heq]
      rw [List.nodup_append] at hnd
      obtain ⟨-, haddnd, hdisj⟩ := hnd
      refine ⟨?_, ?_, ?_, ?_, ?_, h6, h7⟩
      · rw [List.nodup_append]
        refine ⟨h1, haddnd, ?_⟩
        intro x hxq hxa
        exact hdisj (h3 x hxq) hxa
      · rw [List.nodup_append]
        exact ⟨h2, haddnd, hdisj⟩
      · intro w hw
        rcases List.mem_append.mp hw with hw' | hw'
        · exact List.mem_append_left _ (h3 w hw')
        · exact List.mem_append_right _ hw'
      · intro w hw
        exact List.mem_append_left _ (h4 w hw)
      · intro w hw
        rcases List.mem_append.mp hw with hw' | hw'
        · exact h5 w hw'
        · intro hc
          exact hdisj (h4 w hc) hw'
  · exact ⟨h1, h2, h3, h4, h5, h6, h7⟩

/-- The crawl invariant holds after every number of loop iterations. -/
theorem crawlLoop_inv (a : CrawlArgs) (o : CrawlOracle) (fuel : Nat) :
    ∀ (st : CrawlState), CrawlInv st → CrawlInv (crawlLoop a o fuel st) := by
  induction fuel with
  | zero =>
    intro st h
    exact h
  | succ fuel ih =>
    intro st h
    unfold crawlLoop
    cases hq : st.queue with
    | nil => exact h
    | cons u rest =>
      dsimp only
      by_cases hmax : a.maxPages ≤ st.pages.length
      · rw [if_pos hmax]
        exact h
      · rw [if_neg hmax]
        by_cases hval : o.validate st.clock u = false
        · rw [if_pos hval]
          exact ih _ (inv_step1 st _ u rest h hq rfl rfl rfl (Or.inl rfl) rfl rfl)
        · rw [if_neg hval]
          cases hf : o.fetch (st.clock + 1) u with
          | error e =>
            exact ih _ (inv_step1 st _ u rest h hq rfl rfl rfl (Or.inr rfl) rfl rfl)
          | ok pr =>
            dsimp only
            by_cases hblk : a.useAuto = true ∧ st.activeEngine = "chromium" ∧
                st.pages.length = 0 ∧ is_bot_blocked pr = true ∧ a.camoufox = true
            · rw [if_pos hblk]
              cases hff : o.acquireFF (st.clock + 2) with
              | error e =>
                exact ih _ (inv_step1 st _ u rest h hq rfl rfl rfl (Or.inr rfl) rfl rfl)
              | ok s2 =>
                cases hf2 : o.fetch (st.clock + 3) u with
                | error e =>
                  exact ih _ (inv_step_fb st _ u rest h hq hblk.2.1 rfl rfl rfl rfl rfl rfl)
                | ok pr2 =>
                  exact ih _ (afterPage_inv a o st.clock _ pr2
                    (inv_step_fb st _ u rest h hq hblk.2.1 rfl rfl rfl rfl rfl rfl))
            · rw [if_neg hblk]
              exact ih _ (afterPage_inv a o st.clock _ pr
                (inv_step1 st _ u rest h hq rfl rfl rfl (Or.inr rfl) rfl rfl))

/-- The freshly initialised crawl state satisfies the invariant. -/
theorem crawlInit_inv (um : UrlModel) (url firstEngine sessId : String) :
    CrawlInv (initCrawlState um url firstEngine sessId) := by
  refine ⟨List.nodup_singleton _, List.nodup_singleton _, ?_, ?_, ?_, ?_, ?_⟩
  · intro u hu
    exact hu
  · intro u hu
    cases hu
  · intro u hu hc
    cases hc
  · intro u
    simp [initCrawlState, List.count_nil]
  · intro u hu
    cases hu

/-- C8 amended: throughout a crawl, every normalized URL enters the visited
set exactly once, at enqueue time (the seed at initialisation, discovered
links at enqueue) — the visited log is duplicate-free; a URL already in the
visited set is never enqueued again; each URL is taken off the frontier at
most once; and each URL receives at most one navigation call, except the
single URL at which the first-page engine fallback triggered, which is
re-fetched exactly once more on the secondary engine (so its navigation
count is at most two). -/
theorem C8_amended (a : CrawlArgs) (o : CrawlOracle) (fuel : Nat)
    (url firstEngine sessId : String) :
    CrawlInv (crawlLoop a o fuel (initCrawlState a.um url firstEngine sessId)) :=
  crawlLoop_inv a o fuel _ (crawlInit_inv a.um url firstEngine sessId)

/-- Trivial URL model for concrete crawl runs: URLs are taken as already
absolute, normalized http URLs on one host. -/
def c8Um : UrlModel :=
  { urljoin := fun _ h => h, stripFrag := fun u => u,
    scheme := fun _ => "http", hostname := fun _ => some "example.com" }

/-- Firefox session acquired by the fallback in the C8 counterexample. -/
def c8FF : Session :=
  { id := "ff00c800", context := 10, page := 11, engine := "firefox",
    created_at := 0, last_used := 0 }

/-- Oracle for the C8 counterexample: the first fetch is bot-blocked (403),
the re-fetch succeeds, no links are found. -/
def c8Oracle : CrawlOracle :=
  { validate := fun _ _ => true,
    fetch := fun c _ =>
      if c = 1 then .ok { statusCode := some 403 }
      else .ok { statusCode := some 200 },
    acquireFF := fun _ => .ok c8FF,
    links := fun _ => .ok [],
    pageUrl := fun _ => "http://example.com/" }

/-- C8 fails as stated: in this crawl the seed URL is in the visited set
from initialisation, yet it is navigated twice — the engine fallback
re-fetches it on firefox after the chromium result is classified
bot-blocked. -/
theorem C8_counterexample :
    "http://example.com/" ∈
      (initCrawlState c8Um "http://example.com/" "chromium" "sess0001").visited ∧
    (crawlLoop
      { um := c8Um, sameDomain := true, startDomain := some "example.com",
        pattern := none, maxPages := 1, useAuto := true, camoufox := true }
      c8Oracle 3
      (initCrawlState c8Um "http://example.com/" "chromium" "sess0001")).navCalls =
      ["http://example.com/", "http://example.com/"] := by
  exact ⟨List.mem_singleton.mpr rfl, rfl⟩

/-- Final payload of one `crawl_pages` call. -/
structure CrawlPayload where
  error : Option String := none
  pages : List BPayload := []
  totalPages : Nat := 0
  engineKey : Option String := none

/-- server.py `crawl_pages` (lines 502-686): the argument checks, the URL
validation, the `max_pages` clamp, the regex compilation, the seed
normalization, the session acquisition (line 564 — before the `try/finally`,
so its exceptions escape the function), the BFS loop and the final payload.
The loop's `closed` log records the ids passed to `close_session` inside the
loop; the `finally` close of the crawl session is not surfaced in the
payload. -/
def crawl_pages (url : String) (maxPages0 : Int) (outputFormat engine : String)
    (patternCompiled : Option (Except String (String → Bool)))
    (sameDomain : Bool) (um : UrlModel) (validateSeed : Except Exn Unit)
    (camoufox : Bool) (acquire : Except Exn Session) (cfg : Config)
    (o : CrawlOracle) (fuel : Nat) : Except Exn CrawlPayload :=
  if !(VALID_OUTPUT_FORMATS.contains outputFormat) then
    .ok { error := some ("Invalid output_format: " ++ outputFormat) }
  else if !(VALID_ENGINES.contains engine) then
    .ok { error := some ("Invalid engine: " ++ engine) }
  else
    match validateSeed with
    | .error e => .ok { error := some (exnMsg e) }
    | .ok _ =>
      match patternCompiled with
      | some (.error msg) =>
        .ok { error := some ("Invalid link_pattern regex: " ++ msg) }
      | _ =>
        match acquire with
        | .error e => .error e
        | .ok session =>
          .ok
            (let pattern : Option (String → Bool) :=
               match patternCompiled with
               | some (.ok p) => some p
               | _ => none
             let final := crawlLoop
               { um := um, sameDomain := sameDomain,
                 startDomain := um.hostname url, pattern := pattern,
                 maxPages := (max 1 (min maxPages0 (cfg.crawlMaxPagesLimit : Int))).toNat,
                 useAuto := engine == "auto", camoufox := camoufox } o fuel
               (initCrawlState um url (resolveEngine engine) session.id)
             { pages := final.pages, totalPages := final.pages.length,
               engineKey := some final.activeEngine })

/-- A pool without the Camoufox engine. -/
def noCamoPool : PoolState :=
  { sessions := [], chromiumConnected := true, camoufoxAvailable := false,
    nextCtx := 0, closedLog := [] }

/-- C2 fails as stated: `browse` and `crawl_pages` acquire their session
before entering any `try` block, so an exception raised by
`get_or_create_session` (here: the firefox engine being unavailable) escapes
the entry point instead of becoming an error payload. -/
theorem C2_counterexample :
    browse (some "sid00001") "firefox"
      { validateUrl := .ok (),
        acquire := (getOrCreateSession noCamoPool ⟨5, 20⟩ ⟨"fresh123", 0⟩
          (some "sid00001") "firefox").map Prod.fst,
        navigate := .ok {}, camoufoxAvailable := false,
        acquireFF := .ok c8FF, navigateFF := .ok {} } =
      .error (.runtimeError "Camoufox Firefox engine not available") ∧
    crawl_pages "http://example.com/" 5 "markdown" "firefox" none true c8Um
      (.ok ()) false
      ((getOrCreateSession noCamoPool ⟨5, 20⟩ ⟨"fresh123", 0⟩ none "firefox").map
        Prod.fst)
      ⟨5, 20⟩ c8Oracle 3 =
      .error (.runtimeError "Camoufox Firefox engine not available") :=
  ⟨rfl, rfl⟩

/-- C2 amended: interact, extract, close_session, scrape_webpage and
extract_structured_data return a (success or error) payload for every input
and every collaborator behaviour; browse and crawl_pages return a payload
provided the initial session acquisition does not raise, while an exception
raised during that acquisition escapes them unhandled. -/
theorem C2_amended :
    (∀ (sid : String) (st : PoolState) (o : InteractOracle),
       ∃ p, (interact sid st o).1 = .ok p) ∧
    (∀ (sid : String) (st : PoolState) (g : Except Exn BPayload),
       ∃ p, extractTool sid st g = .ok p) ∧
    (∀ (sid : String) (st : PoolState),
       ∃ p st', closeSessionTool sid st = .ok (p, st')) ∧
    (∀ (fmt eng : String) (sid : Option String) (o : ScrapeOracle),
       ∃ p, scrape_webpage fmt eng sid o = .ok p) ∧
    (∀ (eng : String) (v : Except Exn Unit) (acq : Except Exn Session)
       (nav : Except Exn BPayload) (dom : Except Exn (List (String × String))),
       ∃ p, extract_structured_data eng v acq nav dom = .ok p) ∧
    (∀ (sid : Option String) (eng : String) (o : BrowseOracle) (s : Session),
       o.acquire = .ok s → ∃ p closed, browse sid eng o = .ok (p, closed)) ∧
    (∀ (url : String) (mp : Int) (fmt eng : String)
       (pc : Option (Except String (String → Bool))) (sd : Bool)
       (um : UrlModel) (v : Except Exn Unit) (cam : Bool) (s : Session)
       (cfg : Config) (o : CrawlOracle) (fuel : Nat),
       ∃ p, crawl_pages url mp fmt eng pc sd um v cam (.ok s) cfg o fuel = .ok p) := by
  refine ⟨?_, ?_, ?_, ?_, ?_, ?_, ?_⟩
  · intro sid st o
    unfold interact
    cases dictGet st.sessions sid with
    | none => exact ⟨_, rfl⟩
    | some s =>
      cases o.perform with
      | error e => exact ⟨_, rfl⟩
      | ok ru =>
        dsimp only
        by_cases hv : o.validateAfter ru.2 = true
        · rw [if_pos hv]
          exact ⟨_, rfl⟩
        · rw [if_neg hv]
          exact ⟨_, rfl⟩
  · intro sid st g
    unfold extractTool
    cases dictGet st.sessions sid with
    | none => exact ⟨_, rfl⟩
    | some s =>
      cases g with
      | ok r => exact ⟨_, rfl⟩
      | error e => exact ⟨_, rfl⟩
  · intro sid st
    unfold closeSessionTool
    by_cases hm : (!(dictMem st.sessions sid)) = true
    · rw [if_pos hm]
      exact ⟨_, _, rfl⟩
    · rw [if_neg hm]
      exact ⟨_, _, rfl⟩
  · intro fmt eng sid o
    unfold scrape_webpage
    by_cases hf : (!(VALID_OUTPUT_FORMATS.contains fmt)) = true
    · rw [if_pos hf]
      exact ⟨_, rfl⟩
    · rw [if_neg hf]
      by_cases he : (!(VALID_ENGINES.contains eng)) = true
      · rw [if_pos he]
        exact ⟨_, rfl⟩
      · rw [if_neg he]
        cases o.validateUrl with
        | error e => exact ⟨_, rfl⟩
        | ok u =>
          cases o.acquire with
          | error e => exact ⟨_, rfl⟩
          | ok session =>
            cases o.navOnly with
            | error e => exact ⟨_, rfl⟩
            | ok nav =>
              cases o.extractFmt with
              | error e => exact ⟨_, rfl⟩
              | ok cm =>
                dsimp only
                by_cases hblk : (eng == "auto" && resolveEngine eng == "chromium" &&
                    is_bot_blocked
                      { urlKey := nav.urlKey, title := nav.title, content := some cm.1,
                        sessionId := some session.id, statusCode := nav.statusCode,
                        extractionMethod := some cm.2,
                        engineKey := some (resolveEngine eng) }) = true
                · rw [if_pos hblk]
                  by_cases hcam : o.camoufoxAvailable = true
                  · rw [if_pos hcam]
                    cases o.acquireFF with
                    | error e => exact ⟨_, rfl⟩
                    | ok ff =>
                      cases o.navOnlyFF with
                      | error e => exact ⟨_, rfl⟩
                      | ok nav2 =>
                        cases o.extractFmtFF with
                        | error e => exact ⟨_, rfl⟩
                        | ok cm2 => exact ⟨_, rfl⟩
                  · rw [if_neg hcam]
                    exact ⟨_, rfl⟩
                · rw [if_neg hblk]
                  exact ⟨_, rfl⟩
  · intro eng v acq nav dom
    unfold extract_structured_data
    by_cases he : (!(VALID_ENGINES.contains eng)) = true
    · rw [if_pos he]
      exact ⟨_, rfl⟩
    · rw [if_neg he]
      cases v with
      | error e => exact ⟨_, rfl⟩
      | ok u =>
        cases acq with
        | error e => exact ⟨_, rfl⟩
        | ok session =>
          cases nav with
          | error e => exact ⟨_, rfl⟩
          | ok n =>
            cases dom with
            | error e => exact ⟨_, rfl⟩
            | ok secs => exact ⟨_, rfl⟩
  · intro sid eng o s hs
    unfold browse
    by_cases heng : (!(VALID_ENGINES.contains eng)) = true
    · rw [if_pos heng]
      exact ⟨_, _, rfl⟩
    · rw [if_neg heng]
      cases hval : o.validateUrl with
      | error e => exact ⟨_, _, rfl⟩
      | ok u =>
        rw [hs]
        cases hnav : o.navigate with
        | error e => exact ⟨_, _, rfl⟩
        | ok nav0 =>
          dsimp only
          by_cases hblk : (eng == "auto" && resolveEngine eng == "chromium" &&
              is_bot_blocked { nav0 with engineKey := some (resolveEngine eng) }) = true
          · rw [if_pos hblk]
            cases hcam : o.camoufoxAvailable with
            | false => exact ⟨_, _, rfl⟩
            | true =>
              cases hff : o.acquireFF with
              | error e => exact ⟨_, _, rfl⟩
              | ok ff =>
                cases hnav2 : o.navigateFF with
                | ok nav2 => exact ⟨_, _, rfl⟩
                | error e => exact ⟨_, _, rfl⟩
          · rw [if_neg hblk]
            exact ⟨_, _, rfl⟩
  · intro url mp fmt eng pc sd um v cam s cfg o fuel
    unfold crawl_pages
    by_cases hf : (!(VALID_OUTPUT_FORMATS.contains fmt)) = true
    · rw [if_pos hf]
      exact ⟨_, rfl⟩
    · rw [if_neg hf]
      by_cases he : (!(VALID_ENGINES.contains eng)) = true
      · rw [if_pos he]
        exact ⟨_, rfl⟩
      · rw [if_neg he]
        cases v with
        | error e => exact ⟨_, rfl⟩
        | ok u =>
          cases pc with
          | none => exact ⟨_, rfl⟩
          | some ex =>
            cases ex with
            | error m => exact ⟨_, rfl⟩
            | ok p => exact ⟨_, rfl⟩

/-- Witness for C2: concrete browse and crawl_pages calls whose session
acquisition succeeds return payloads. -/
theorem C2_witness :
    (∃ p closed, browse none "chromium"
      { validateUrl := .ok (), acquire := .ok sessKeep, navigate := .ok {},
        camoufoxAvailable := false, acquireFF := .ok c8FF,
        navigateFF := .ok {} } = .ok (p, closed)) ∧
    (∃ p, crawl_pages "http://example.com/" 5 "markdown" "chromium" none true
      c8Um (.ok ()) false (.ok sessKeep) ⟨5, 20⟩ c8Oracle 3 = .ok p) :=
  ⟨C2_amended.2.2.2.2.2.1 none "chromium" _ sessKeep rfl,
   C2_amended.2.2.2.2.2.2 "http://example.com/" 5 "markdown" "chromium" none
     true c8Um (.ok ()) false sessKeep ⟨5, 20⟩ c8Oracle 3⟩

/-- Witness for C6 at a concrete over-long text. -/
theorem C6_witness :
    (smart_truncate "aa\n\nbb\n\ncc".toList 7).2 = true ∧
    (smart_truncate "aa\n\nbb\n\ncc".toList 7).1.length ≤ 7 + truncMarker.length ∧
    ∃ cut, (smart_truncate "aa\n\nbb\n\ncc".toList 7).1 = cut ++ truncMarker ∧
      cut <+: "aa\n\nbb\n\ncc".toList ∧ cut = orderedFallbackCut "aa\n\nbb\n\ncc".toList 7 :=
  (C6_smart_truncate "aa\n\nbb\n\ncc".toList 7).2 (by decide)

end StealthBrowser
